import Mathlib

/-
  Verification development for the StoryToVideo server task orchestration
  engine.  The Go sources are embedded shallowly:

  * models (Task, TaskResult, TaskParameters, status/type constants) come
    from the models package;
  * the queue consumer handler HandleGenerateTask, the dispatch response
    handling of dispatchWorkerRequest, the poll loop normalization and
    terminal-state detection of pollJobResult, and the poll cancellation
    registry come from the service package;
  * CreateTask / GetTaskByID / UpdateTaskStatus come from models/db.go.

  External effects (database rows, HTTP exchanges, the queue substrate)
  are represented by explicit state values and by environment records
  that fix the outcome of each external call; the control flow operating
  on those outcomes is translated directly from the source.
-/

namespace StoryToVideo

/-! ## Status and type constants (models task file) -/

def TaskStatusPending : String := "pending"
def TaskStatusBlocked : String := "blocked"
def TaskStatusProcessing : String := "processing"
def TaskStatusSuccess : String := "finished"
def TaskStatusFailed : String := "failed"
def TaskStatusCancelled : String := "cancelled"

def TaskTypeStoryboard : String := "generate_storyboard"
def TaskTypeShotImage : String := "generate_shot"
def TaskTypeProjectAudio : String := "generate_audio"
def TaskTypeVideoGen : String := "generate_video"

/-- Go time.Time modelled as an abstract instant; `GoTime.zero` is the Go
zero value time.Time given by the empty literal. -/
structure GoTime where
  val : Int
deriving DecidableEq, Repr

def GoTime.zero : GoTime := ⟨0⟩

/-! ## Data model (models task file) -/

/-- models.TaskResult: the minimal resource locator. -/
structure TaskResult where
  resourceType : String := ""
  resourceId : String := ""
  resourceUrl : String := ""
deriving DecidableEq, Repr

/-- models.ShotDefaultsParams. -/
structure ShotDefaultsParams where
  shotCount : Int := 0
  style : String := ""
  storyText : String := ""
deriving DecidableEq, Repr

/-- models.ShotParams. -/
structure ShotParams where
  transition : String := ""
  shotId : String := ""
  imageWidth : String := ""
  imageHeight : String := ""
  prompt : String := ""
  style : String := ""
  imageLLM : String := ""
  generateTTS : Bool := false
deriving DecidableEq, Repr

/-- models.VideoParams. -/
structure VideoParams where
  resolution : String := ""
  fps : Int := 0
  format : String := ""
  bitrate : Int := 0
deriving DecidableEq, Repr

/-- models.TTSParams. -/
structure TTSParams where
  voice : String := ""
  lang : String := ""
  sampleRate : Int := 0
  format : String := ""
deriving DecidableEq, Repr

/-- models.TaskParameters: optional variants plus the dependency list. -/
structure TaskParameters where
  shotDefaults : Option ShotDefaultsParams := none
  shot : Option ShotParams := none
  video : Option VideoParams := none
  tts : Option TTSParams := none
  dependsOn : List String := []
deriving DecidableEq, Repr

/-- models.Task (named TaskRec here to avoid the core Task type). -/
structure TaskRec where
  id : String := ""
  projectId : String := ""
  shotId : String := ""
  type : String := ""
  status : String := ""
  progress : Int := 0
  message : String := ""
  parameters : TaskParameters := {}
  result : TaskResult := {}
  error : String := ""
  estimatedDuration : Int := 0
  startedAt : GoTime := GoTime.zero
  finishedAt : GoTime := GoTime.zero
  createdAt : GoTime := GoTime.zero
  updatedAt : GoTime := GoTime.zero
deriving DecidableEq, Repr

/-! ## Task.UpdateStatus (models task file)

    Go: updates["status"] = status and updated_at always; result is
    marshalled and written only when the result argument is non-nil;
    the error column is written only when errMsg is non-empty. -/

def TaskRec.updateStatus (t : TaskRec) (status : String)
    (result : Option TaskResult) (errMsg : String) (now : GoTime) : TaskRec :=
  { t with
    status := status
    updatedAt := now
    result := match result with
      | some r => r
      | none => t.result
    error := if errMsg = "" then t.error else errMsg }

/-! ## Persisted task rows and CreateTask / GetTaskByID (models/db.go)

    A task row mirrors the task table: shot_id, message, error,
    started_at and finished_at are nullable columns. -/

structure TaskRow where
  id : String := ""
  projectId : String := ""
  shotId : Option String := none
  type : String := ""
  status : String := ""
  progress : Int := 0
  message : Option String := none
  parameters : TaskParameters := {}
  result : TaskResult := {}
  error : Option String := none
  estimatedDuration : Int := 0
  startedAt : Option GoTime := none
  finishedAt : Option GoTime := none
  createdAt : GoTime := GoTime.zero
  updatedAt : GoTime := GoTime.zero
deriving DecidableEq, Repr

/-- models.CreateTask: the INSERT column list omits shot_id entirely (the
source notes that the shot_id column is deliberately kept NULL), and
zero-valued started_at / finished_at are inserted as NULL. -/
def CreateTask (t : TaskRec) (now : GoTime) : TaskRow :=
  { id := t.id
    projectId := t.projectId
    shotId := none
    type := t.type
    status := t.status
    progress := t.progress
    message := some t.message
    parameters := t.parameters
    result := t.result
    error := some t.error
    estimatedDuration := t.estimatedDuration
    startedAt := if t.startedAt = GoTime.zero then none else some t.startedAt
    finishedAt := if t.finishedAt = GoTime.zero then none else some t.finishedAt
    createdAt := now
    updatedAt := now }

/-- models.GetTaskByID: the row is scanned; shot_id is read into a
nullable local that is never copied into the struct, so the returned
record always carries an empty ShotId; nullable message / error / time
columns fall back to the Go zero values. -/
def GetTaskByID (r : TaskRow) : TaskRec :=
  { id := r.id
    projectId := r.projectId
    shotId := ""
    type := r.type
    status := r.status
    progress := r.progress
    message := r.message.getD ""
    parameters := r.parameters
    result := r.result
    error := r.error.getD ""
    estimatedDuration := r.estimatedDuration
    startedAt := r.startedAt.getD GoTime.zero
    finishedAt := r.finishedAt.getD GoTime.zero
    createdAt := r.createdAt
    updatedAt := r.updatedAt }

/-- models.UpdateTaskStatus (db.go): every argument is optional; only the
provided fields are included in the UPDATE statement (an empty status
string means the status column is not touched); updated_at is always
written. -/
def UpdateTaskStatusRow (r : TaskRow) (status : String) (progress : Option Int)
    (message : Option String) (result : Option TaskResult) (errStr : Option String)
    (startedAt finishedAt : Option GoTime) (now : GoTime) : TaskRow :=
  { r with
    status := if status = "" then r.status else status
    progress := progress.getD r.progress
    message := match message with
      | some m => some m
      | none => r.message
    result := result.getD r.result
    error := match errStr with
      | some e => some e
      | none => r.error
    startedAt := match startedAt with
      | some s => some s
      | none => r.startedAt
    finishedAt := match finishedAt with
      | some f => some f
      | none => r.finishedAt
    updatedAt := now }

/-! ## Result routing shot id resolution (service HandleGenerateTask)

    Go: shotId := task.ShotId; if shotId == "" and the Shot parameter
    variant is present, shotId = task.Parameters.Shot.ShotId. -/

def resolveShotId (t : TaskRec) : String :=
  let s := t.shotId
  if s = "" then
    match t.parameters.shot with
    | some p => p.shotId
    | none => s
  else s

/-! ## Dispatcher response handling (service dispatchWorkerRequest)

    The tail of dispatchWorkerRequest after the POST has returned:
    reject any status other than 200/201/202 with an error carrying the
    status code, then decode the JSON body, then take the root "id"
    field if it is a string, else "job_id" if it is a string, else fail.
    A decoded JSON object is modelled as an association list from keys
    to values, a value being a string or anything else (the Go type
    assertion .(string) only distinguishes these two cases). -/

inductive JsonVal where
  | str (s : String)
  | other
deriving DecidableEq, Repr

inductive DispatchErr where
  | badStatus (code : Nat)
  | decodeFailed
  | missingId
  | missingParams (which : String)
  | shotNotFound
  | shotNoImage
  | unsupportedType (t : String)
  | transport
deriving DecidableEq, Repr

def DispatchErr.message : DispatchErr → String
  | .badStatus code => "worker status code: " ++ toString code
  | .decodeFailed => "decode response failed"
  | .missingId => "response missing id"
  | .missingParams which => "missing " ++ which ++ " parameters"
  | .shotNotFound => "shot not found"
  | .shotNoImage => "shot has no image_path (unable to gen video)"
  | .unsupportedType t => "unsupported task type: " ++ t
  | .transport => "worker request transport error"

/-- Go map indexing plus type assertion: respData[k].(string). -/
def getStringField (body : List (String × JsonVal)) (k : String) : Option String :=
  match body.find? (fun kv => kv.1 == k) with
  | some (_, JsonVal.str s) => some s
  | _ => none

/-- The response handling of dispatchWorkerRequest; `body` is none when
the JSON decode of the response body failed. -/
def extractJobId (statusCode : Nat) (body : Option (List (String × JsonVal))) :
    Except DispatchErr String :=
  if statusCode ≠ 200 ∧ statusCode ≠ 201 ∧ statusCode ≠ 202 then
    Except.error (DispatchErr.badStatus statusCode)
  else
    match body with
    | none => Except.error DispatchErr.decodeFailed
    | some m =>
      match getStringField m "id" with
      | some id => Except.ok id
      | none =>
        match getStringField m "job_id" with
        | some j => Except.ok j
        | none => Except.error DispatchErr.missingId

/-! ## Poll loop terminal-state detection (service pollJobResult)

    After a successful status query the normalized status string decides
    whether the loop returns the result, returns a worker-reported
    failure, or keeps polling. -/

inductive PollStep where
  | done (r : TaskResult)
  | fail (msg : String)
  | continuePolling
deriving DecidableEq, Repr

def pollDecide (status errText : String) (result : TaskResult) : PollStep :=
  if status = TaskStatusSuccess ∨ status = "success" ∨ status = "completed"
      ∨ status = "succeeded" then
    PollStep.done result
  else if status = TaskStatusFailed ∨ status = "error" then
    PollStep.fail ("worker reported failure: " ++ errText)
  else
    PollStep.continuePolling

/-! ## Poll loop response normalization (service pollJobResult)

    The job-status body is decoded into an intermediate struct whose
    timestamp fields are nullable strings, then converted to a task
    value; parseTime tries the four layouts in order and falls back to
    the zero time on a nil pointer, an empty string, or when every
    layout fails.  The layout matcher itself (Go time.Parse) is taken
    as a parameter tp. -/

/-- The raw job-status response with *string timestamp fields. -/
structure RawJobResp where
  id : String := ""
  projectId : Option String := none
  shotId : Option String := none
  type : String := ""
  status : String := ""
  progress : Int := 0
  message : String := ""
  result : TaskResult := {}
  error : String := ""
  estimatedDuration : Int := 0
  startedAt : Option String := none
  finishedAt : Option String := none
  createdAt : Option String := none
  updatedAt : Option String := none
deriving DecidableEq, Repr

/-- The four layouts tried in order: time.RFC3339Nano, time.RFC3339, and
two zone-less forms. -/
def timeLayouts : List String :=
  ["2006-01-02T15:04:05.999999999Z07:00", "2006-01-02T15:04:05Z07:00",
   "2006-01-02T15:04:05.999999", "2006-01-02T15:04:05"]

def parseTime (tp : String → String → Option GoTime) (s : Option String) : GoTime :=
  match s with
  | none => GoTime.zero
  | some str =>
    if str = "" then GoTime.zero
    else
      match timeLayouts.findSome? (fun l => tp l str) with
      | some t => t
      | none => GoTime.zero

/-- Conversion of the raw response back to a task value: projectId and
shotId are dropped, parameters stay empty, the timestamps go through
parseTime. -/
def normalizeJobResp (tp : String → String → Option GoTime) (raw : RawJobResp) : TaskRec :=
  { id := raw.id
    projectId := ""
    shotId := ""
    type := raw.type
    status := raw.status
    progress := raw.progress
    message := raw.message
    parameters := {}
    result := raw.result
    error := raw.error
    estimatedDuration := raw.estimatedDuration
    startedAt := parseTime tp raw.startedAt
    finishedAt := parseTime tp raw.finishedAt
    createdAt := parseTime tp raw.createdAt
    updatedAt := parseTime tp raw.updatedAt }

/-- A timestamp field that is absent, empty, or in a format none of the
four layouts accepts. -/
def unparseableField (tp : String → String → Option GoTime) (s : Option String) : Prop :=
  s = none ∨ s = some "" ∨ ∃ str, s = some str ∧ ∀ l ∈ timeLayouts, tp l str = none

/-! ## Poll cancellation registry (service task processor)

    pollCancelRegistry maps a task id to the context.CancelFunc of its
    poll loop.  Invoking a cancel function makes the corresponding poll
    context done; the `cancelled` component records the ids whose cancel
    function has been invoked. -/

structure RegState where
  handles : List String := []
  cancelled : List String := []
deriving DecidableEq, Repr

/-- RegisterPollCancel: m[taskID] = cancel (replacing any prior handle). -/
def RegisterPollCancel (st : RegState) (id : String) : RegState :=
  { st with handles := id :: st.handles.filter (fun x => x ≠ id) }

/-- UnregisterPollCancel: delete(m, taskID). -/
def UnregisterPollCancel (st : RegState) (id : String) : RegState :=
  { st with handles := st.handles.filter (fun x => x ≠ id) }

/-- CancelPollTask: if a handle is registered, invoke it, remove it and
return true; otherwise return false. -/
def CancelPollTask (st : RegState) (id : String) : RegState × Bool :=
  if st.handles.contains id then
    ({ handles := st.handles.filter (fun x => x ≠ id),
       cancelled := id :: st.cancelled }, true)
  else (st, false)

/-- The ways the poll loop can terminate without a usable result:
select on the timeout channel, select on the done poll context, or a
worker-reported failure status (pollDecide fail branch). -/
inductive PollErr where
  | timeout
  | cancelled
  | workerFailure (errText : String)
deriving DecidableEq, Repr

/-- The error string carried by each poll loop termination. -/
def PollErr.message : PollErr → String
  | .timeout => "polling timeout"
  | .cancelled => "polling canceled: context canceled"
  | .workerFailure e => "worker reported failure: " ++ e

/-- One wake of the poll loop select: a done poll context returns the
cancellation error, otherwise the outcome of this tick stands. -/
def pollWake (st : RegState) (id : String) (tickOutcome : Except PollErr TaskResult) :
    Except PollErr TaskResult :=
  if st.cancelled.contains id then Except.error PollErr.cancelled
  else tickOutcome

/-! ## The queue consumer handler (service HandleGenerateTask)

    The handler is the composition of external calls whose outcomes are
    fixed by a HandlerEnv: the task lookup, the dispatch, the poll, and
    the type-specific result routing.  Its observable behaviour is the
    ordered list of task status writes it performs and the error it
    returns to the queue substrate (asynq): a non-nil return value makes
    asynq redeliver the task id (MaxRetry 3). -/

/-- One write to the persisted task record: the status written, the
result attached to the write (none when the result column is left
untouched) and the error text attached (empty when the error column is
left untouched).  Writes come either from Task.UpdateStatus or from the
job-id write through models.UpdateTaskStatus. -/
structure StatusWrite where
  status : String
  result : Option TaskResult
  errMsg : String
deriving DecidableEq, Repr

/-- The error value the handler returns to asynq, when non-nil. -/
inductive HandlerRet where
  | taskNotFound
  | dispatchFailed (e : DispatchErr)
deriving DecidableEq, Repr

/-- Fixed outcomes of the external calls of the handler. -/
structure HandlerEnv where
  lookup : Option TaskRec
  dispatch : Except DispatchErr String
  poll : Except PollErr TaskResult
  route : Option String
deriving Repr

/-- Observable behaviour of one handler run. -/
structure HandlerOut where
  writes : List StatusWrite
  ret : Option HandlerRet
deriving DecidableEq, Repr

/-- The type switch on the routing step: the five known task types run
their branch (outcome env.route, some errText on failure), any other
type is the default branch error. -/
def routeOutcome (env : HandlerEnv) (t : TaskRec) : Option String :=
  if t.type = TaskTypeStoryboard ∨ t.type = TaskTypeShotImage
      ∨ t.type = "regenerate_shot" ∨ t.type = TaskTypeProjectAudio
      ∨ t.type = TaskTypeVideoGen then
    env.route
  else
    some ("unknown task type: " ++ t.type)

/-- HandleGenerateTask, translated branch by branch:
  * lookup failure: return the not-found error (no SkipRetry mark);
  * mark processing;
  * create_project: mark finished immediately, return nil;
  * dispatch error: mark failed, return the error (triggers retry);
  * dispatch ok: write the job id into the result column with status
    processing (models.UpdateTaskStatus), poll;
  * poll error: mark failed, return nil (business failure, no retry);
  * poll ok: route by type; routing error marks failed with the result
    still attached, success marks finished; both return nil. -/
def handleGenerateTask (env : HandlerEnv) : HandlerOut :=
  match env.lookup with
  | none => { writes := [], ret := some HandlerRet.taskNotFound }
  | some task =>
    let w1 : StatusWrite := ⟨TaskStatusProcessing, none, ""⟩
    if task.type = "create_project" then
      { writes := [w1, ⟨TaskStatusSuccess, none, "Project initialized"⟩], ret := none }
    else
      match env.dispatch with
      | Except.error e =>
        { writes := [w1, ⟨TaskStatusFailed, none,
            "Worker Request Failed: " ++ e.message⟩],
          ret := some (HandlerRet.dispatchFailed e) }
      | Except.ok jobID =>
        let w2 : StatusWrite := ⟨TaskStatusProcessing, some { resourceId := jobID }, ""⟩
        match env.poll with
        | Except.error pe =>
          { writes := [w1, w2, ⟨TaskStatusFailed, none, "Job Failed: " ++ pe.message⟩],
            ret := none }
        | Except.ok taskResult =>
          match routeOutcome env task with
          | some perr =>
            { writes := [w1, w2, ⟨TaskStatusFailed, some taskResult, perr⟩], ret := none }
          | none =>
            { writes := [w1, w2, ⟨TaskStatusSuccess, some taskResult, ""⟩], ret := none }

/-- Replay a list of status writes over a task record through the
Task.UpdateStatus write semantics. -/
def applyWrites (t : TaskRec) (ws : List StatusWrite) (now : GoTime) : TaskRec :=
  ws.foldl (fun acc w => acc.updateStatus w.status w.result w.errMsg now) t

/-- Statuses written by one handler run, in order. -/
def statusTrace (env : HandlerEnv) : List String :=
  (handleGenerateTask env).writes.map (fun w => w.status)

/-- The condition under which the handler actually hands a non-nil error
back to the queue substrate, written out from the spec wording of the
amended claim: the task record was not found, or the task is not the
degenerate create_project type and the dispatch failed. -/
def amendedRetCondition (env : HandlerEnv) : Bool :=
  match env.lookup with
  | none => true
  | some t =>
    decide (t.type ≠ "create_project") &&
      (match env.dispatch with
       | Except.error _ => true
       | Except.ok _ => false)

/-! ## Dependency resolver

    Modelled from the spec: the release of blocked dependent tasks is
    performed by a watcher that the server defers to (blocked shot tasks
    are created with a depends_on list and are deliberately not
    enqueued) but that is absent from the server sources.  Contract:
    when a task transitions to finished, find every other task whose
    dependency set includes the id of that task and whose entire dependency
    set is now finished, transition each from blocked to pending and
    submit it for execution (the returned id list is the enqueue batch). -/

/-- Whether the task with the given id is currently finished; an id with
no task record is not finished. -/
def taskFinished (tasks : List TaskRec) (d : String) : Bool :=
  match tasks.find? (fun t => t.id == d) with
  | some t => t.status == TaskStatusSuccess
  | none => false

/-- Modelled from the spec: a blocked task is eligible for release after
`fid` finished when its dependency set mentions fid and every dependency
is finished. -/
def eligibleForRelease (tasks : List TaskRec) (fid : String) (t : TaskRec) : Bool :=
  decide (t.status = TaskStatusBlocked ∧ fid ∈ t.parameters.dependsOn ∧
    ∀ d ∈ t.parameters.dependsOn, taskFinished tasks d = true)

/-- Modelled from the spec: transition every eligible dependent from
blocked to pending and collect the ids submitted for execution. -/
def releaseDependents (tasks : List TaskRec) (fid : String) :
    List TaskRec × List String :=
  (tasks.map (fun t =>
      if eligibleForRelease tasks fid t then { t with status := TaskStatusPending } else t),
   (tasks.filter (eligibleForRelease tasks fid)).map (fun t => t.id))

/-! ## Scenario: external cancellation during polling

    Interleaving of the consumer pipeline with an administrative
    cancellation (shot.go / project.go cancel path), step by step:
      1. the consumer run has dispatched: it wrote processing, wrote the
         job id, and registered its poll cancel handle;
      2. the canceller calls CancelPollTask (handle invoked and removed)
         and then writes status cancelled with a message (the error and
         result columns untouched);
      3. the poll loop wakes on the done context and returns the
         cancellation error;
      4. the consumer marks the task failed and unregisters the handle.
    The consumer side is handleGenerateTask itself with the poll outcome
    produced by the woken loop; its first two writes land before the
    cancellation, the poll-error write lands after the one of the canceller. -/

structure ScenarioEOut where
  trace : List StatusWrite
  registry : RegState
  pollOutcome : Except PollErr TaskResult
  cancelFound : Bool
deriving Repr

def scenarioE (task : TaskRec) (jobId : String) : ScenarioEOut :=
  let st1 := RegisterPollCancel {} task.id
  let c := CancelPollTask st1 task.id
  let pollOutcome := pollWake c.1 task.id (Except.ok {})
  let consumer := handleGenerateTask
    { lookup := some task, dispatch := Except.ok jobId, poll := pollOutcome, route := none }
  { trace := consumer.writes.take 2
      ++ [⟨TaskStatusCancelled, none, ""⟩]
      ++ consumer.writes.drop 2
    registry := UnregisterPollCancel c.1 task.id
    pollOutcome := pollOutcome
    cancelFound := c.2 }

/-! # Theorems -/

/-! ## Helper lemmas -/

lemma parseTime_of_unparseable (tp : String → String → Option GoTime)
    (s : Option String) (h : unparseableField tp s) : parseTime tp s = GoTime.zero := by
  rcases h with rfl | rfl | ⟨str, rfl, hall⟩
  · rfl
  · simp [parseTime]
  · by_cases hs : str = ""
    · simp [parseTime, hs]
    · have hnone : timeLayouts.findSome? (fun l => tp l str) = none :=
        List.findSome?_eq_none_iff.mpr hall
      simp [parseTime, hs, hnone]

/-! ## C10 -/

/-- C10: Task.UpdateStatus writes the error column only when its error
message argument is non-empty; an update with an empty message leaves
the stored error text unchanged, so marking a task finished with an
empty message after an earlier failure keeps the failure text. -/
theorem C10_error_column_frame :
    ∀ (t : TaskRec) (s : String) (r : Option TaskResult) (m : String) (now : GoTime),
    (t.updateStatus s r "" now).error = t.error
    ∧ ((t.updateStatus s r m now).error = if m = "" then t.error else m)
    ∧ (((t.updateStatus TaskStatusFailed none m now).updateStatus
          TaskStatusSuccess r "" now).error = if m = "" then t.error else m) := by
  intro t s r m now
  refine ⟨by simp [TaskRec.updateStatus], by simp [TaskRec.updateStatus], ?_⟩
  simp [TaskRec.updateStatus]

/-! ## C9 -/

/-- C9: CreateTask leaves the shot_id column NULL regardless of the
ShotId field, a task read back through GetTaskByID therefore has an
empty ShotId, and the per-shot result routing resolves the shot id from
the Shot parameter variant whenever the record ShotId is empty. -/
theorem C9_shot_id_resolution :
    ∀ (t : TaskRec) (now : GoTime),
    (CreateTask t now).shotId = none
    ∧ (GetTaskByID (CreateTask t now)).shotId = ""
    ∧ (∀ (u : TaskRec) (p : ShotParams),
        u.shotId = "" → u.parameters.shot = some p → resolveShotId u = p.shotId) := by
  intro t now
  refine ⟨rfl, rfl, ?_⟩
  intro u p h1 h2
  simp [resolveShotId, h1, h2]

/-- Closed instance of C9 at a video-gen style task that carried a
ShotId value on creation. -/
theorem C9_shot_id_resolution_witness :
    (CreateTask { id := "t1", shotId := "s9", type := "generate_video" } ⟨5⟩).shotId = none
    ∧ (GetTaskByID (CreateTask { id := "t1", shotId := "s9", type := "generate_video" } ⟨5⟩)).shotId = ""
    ∧ resolveShotId { shotId := "", parameters := { shot := some { shotId := "s9" } } } = "s9" := by
  obtain ⟨h1, h2, h3⟩ :=
    C9_shot_id_resolution { id := "t1", shotId := "s9", type := "generate_video" } ⟨5⟩
  exact ⟨h1, h2, h3 _ _ rfl rfl⟩

/-! ## C7 -/

/-- C7: the poll loop returns the result locator exactly on the four
success synonyms, returns a worker-reported failure carrying the worker
error text exactly on the two failure synonyms, and keeps polling on any
other status. -/
theorem C7_terminal_detection :
    ∀ (s e : String) (r : TaskResult),
    (pollDecide s e r = PollStep.done r ↔
      (s = "finished" ∨ s = "success" ∨ s = "completed" ∨ s = "succeeded"))
    ∧ (pollDecide s e r = PollStep.fail ("worker reported failure: " ++ e) ↔
      (s = "failed" ∨ s = "error"))
    ∧ ((¬ (s = "finished" ∨ s = "success" ∨ s = "completed" ∨ s = "succeeded")) →
       (¬ (s = "failed" ∨ s = "error")) →
       pollDecide s e r = PollStep.continuePolling) := by
  intro s e r
  by_cases h1 : s = "finished" ∨ s = "success" ∨ s = "completed" ∨ s = "succeeded"
  · have hne : ¬ (s = "failed" ∨ s = "error") := by
      rcases h1 with h | h | h | h <;> subst h <;> simp
    refine ⟨?_, ?_, ?_⟩
    · simp [pollDecide, TaskStatusSuccess, h1]
    · simp [pollDecide, TaskStatusSuccess, h1, hne]
    · intro hab; exact absurd h1 hab
  · by_cases h2 : s = "failed" ∨ s = "error"
    · have h1s : ¬ (s = TaskStatusSuccess ∨ s = "success" ∨ s = "completed" ∨ s = "succeeded") := by
        simpa [TaskStatusSuccess] using h1
      refine ⟨?_, ?_, ?_⟩
      · simp [pollDecide, h1s, TaskStatusFailed, h2, h1]
      · simp [pollDecide, h1s, TaskStatusFailed, h2]
      · intro _ hab; exact absurd h2 hab
    · have h1s : ¬ (s = TaskStatusSuccess ∨ s = "success" ∨ s = "completed" ∨ s = "succeeded") := by
        simpa [TaskStatusSuccess] using h1
      have h2s : ¬ (s = TaskStatusFailed ∨ s = "error") := by
        simpa [TaskStatusFailed] using h2
      refine ⟨?_, ?_, ?_⟩
      · simp [pollDecide, h1s, h2s, h1]
      · simp [pollDecide, h1s, h2s, h2]
      · intro _ _; simp [pollDecide, h1s, h2s]

/-- Closed instance of C7 on the status "succeeded" (Scenario B wording),
on the failure status "error", and on the in-flight status "running". -/
theorem C7_terminal_detection_witness :
    pollDecide "succeeded" "" { resourceUrl := "u" } = PollStep.done { resourceUrl := "u" }
    ∧ pollDecide "error" "OOM" {} = PollStep.fail ("worker reported failure: " ++ "OOM")
    ∧ pollDecide "running" "" {} = PollStep.continuePolling := by
  refine ⟨?_, ?_, ?_⟩
  · exact (C7_terminal_detection "succeeded" "" { resourceUrl := "u" }).1.mpr (by simp)
  · exact (C7_terminal_detection "error" "OOM" {}).2.1.mpr (by simp)
  · exact (C7_terminal_detection "running" "" {}).2.2 (by simp) (by simp)

/-! ## C6 -/

/-- C6: the dispatcher returns a job id exactly when the response status
is 200, 201 or 202 and the decoded body has a string field id or job_id;
any other status yields the error carrying the status code, and an
accepted response with neither field yields the missing-id error. -/
theorem C6_dispatch_response_contract :
    ∀ (code : Nat) (body : Option (List (String × JsonVal))),
    ((∃ j, extractJobId code body = Except.ok j) ↔
      ((code = 200 ∨ code = 201 ∨ code = 202) ∧
        ∃ m, body = some m ∧
          (getStringField m "id" ≠ none ∨ getStringField m "job_id" ≠ none)))
    ∧ (¬ (code = 200 ∨ code = 201 ∨ code = 202) →
        extractJobId code body = Except.error (DispatchErr.badStatus code))
    ∧ (∀ m, (code = 200 ∨ code = 201 ∨ code = 202) → body = some m →
        getStringField m "id" = none → getStringField m "job_id" = none →
        extractJobId code body = Except.error DispatchErr.missingId) := by
  intro code body
  by_cases hc : code = 200 ∨ code = 201 ∨ code = 202
  · have hcond : ¬ (code ≠ 200 ∧ code ≠ 201 ∧ code ≠ 202) := by tauto
    refine ⟨?_, fun hab => absurd hc hab, ?_⟩
    · cases body with
      | none => simp [extractJobId, hcond]
      | some m =>
        cases hid : getStringField m "id" with
        | some v => simp [extractJobId, hcond, hid, hc]
        | none =>
          cases hjid : getStringField m "job_id" with
          | some v => simp [extractJobId, hcond, hid, hjid, hc]
          | none => simp [extractJobId, hcond, hid, hjid]
    · intro m _ hbody hid hjid
      subst hbody
      simp [extractJobId, hcond, hid, hjid]
  · have hcond : code ≠ 200 ∧ code ≠ 201 ∧ code ≠ 202 := by tauto
    refine ⟨?_, fun _ => by simp [extractJobId, hcond], fun m hm => absurd hm hc⟩
    simp [extractJobId, hcond, hc]

/-- Closed instances of C6: a 201 body carrying job_id succeeds, a 500
response is the status-code error, a 200 body with neither field is the
missing-id error. -/
theorem C6_dispatch_response_contract_witness :
    (∃ j, extractJobId 201 (some [("job_id", JsonVal.str "j7")]) = Except.ok j)
    ∧ extractJobId 500 (some [("id", JsonVal.str "j7")])
        = Except.error (DispatchErr.badStatus 500)
    ∧ extractJobId 200 (some [("note", JsonVal.str "hi")])
        = Except.error DispatchErr.missingId := by
  refine ⟨?_, ?_, ?_⟩
  · exact (C6_dispatch_response_contract 201 (some [("job_id", JsonVal.str "j7")])).1.mpr
      ⟨by simp, _, rfl, by simp [getStringField]⟩
  · exact (C6_dispatch_response_contract 500 (some [("id", JsonVal.str "j7")])).2.1 (by simp)
  · exact (C6_dispatch_response_contract 200 (some [("note", JsonVal.str "hi")])).2.2
      _ (by simp) rfl (by simp [getStringField]) (by simp [getStringField])

/-! ## C8 -/

/-- C8: a job-status response whose optional timestamp fields are
absent, empty, or unparseable under every layout still normalizes, every
such timestamp resolving to the zero time, while status, progress and
result are taken from the response unchanged. -/
theorem C8_timestamp_tolerance :
    ∀ (tp : String → String → Option GoTime) (raw : RawJobResp),
    unparseableField tp raw.startedAt → unparseableField tp raw.finishedAt →
    unparseableField tp raw.createdAt → unparseableField tp raw.updatedAt →
    ((normalizeJobResp tp raw).startedAt = GoTime.zero
      ∧ (normalizeJobResp tp raw).finishedAt = GoTime.zero
      ∧ (normalizeJobResp tp raw).createdAt = GoTime.zero
      ∧ (normalizeJobResp tp raw).updatedAt = GoTime.zero)
    ∧ ((normalizeJobResp tp raw).status = raw.status
      ∧ (normalizeJobResp tp raw).progress = raw.progress
      ∧ (normalizeJobResp tp raw).result = raw.result) := by
  intro tp raw h1 h2 h3 h4
  refine ⟨⟨?_, ?_, ?_, ?_⟩, rfl, rfl, rfl⟩
  · exact parseTime_of_unparseable tp raw.startedAt h1
  · exact parseTime_of_unparseable tp raw.finishedAt h2
  · exact parseTime_of_unparseable tp raw.createdAt h3
  · exact parseTime_of_unparseable tp raw.updatedAt h4

/-- Closed instance of C8: a matcher that accepts nothing, a response
with one absent, one empty and two garbage timestamps. -/
theorem C8_timestamp_tolerance_witness :
    (((normalizeJobResp (fun _ _ => none)
        { status := "running", progress := 40, result := { resourceUrl := "u" },
          startedAt := some "not-a-date", finishedAt := none,
          createdAt := some "", updatedAt := some "99/99" }).startedAt = GoTime.zero
      ∧ (normalizeJobResp (fun _ _ => none)
        { status := "running", progress := 40, result := { resourceUrl := "u" },
          startedAt := some "not-a-date", finishedAt := none,
          createdAt := some "", updatedAt := some "99/99" }).finishedAt = GoTime.zero
      ∧ (normalizeJobResp (fun _ _ => none)
        { status := "running", progress := 40, result := { resourceUrl := "u" },
          startedAt := some "not-a-date", finishedAt := none,
          createdAt := some "", updatedAt := some "99/99" }).createdAt = GoTime.zero
      ∧ (normalizeJobResp (fun _ _ => none)
        { status := "running", progress := 40, result := { resourceUrl := "u" },
          startedAt := some "not-a-date", finishedAt := none,
          createdAt := some "", updatedAt := some "99/99" }).updatedAt = GoTime.zero)
    ∧ ((normalizeJobResp (fun _ _ => none)
        { status := "running", progress := 40, result := { resourceUrl := "u" },
          startedAt := some "not-a-date", finishedAt := none,
          createdAt := some "", updatedAt := some "99/99" }).status = "running"
      ∧ (normalizeJobResp (fun _ _ => none)
        { status := "running", progress := 40, result := { resourceUrl := "u" },
          startedAt := some "not-a-date", finishedAt := none,
          createdAt := some "", updatedAt := some "99/99" }).progress = 40
      ∧ (normalizeJobResp (fun _ _ => none)
        { status := "running", progress := 40, result := { resourceUrl := "u" },
          startedAt := some "not-a-date", finishedAt := none,
          createdAt := some "", updatedAt := some "99/99" }).result = { resourceUrl := "u" })) :=
  C8_timestamp_tolerance (fun _ _ => none)
    { status := "running", progress := 40, result := { resourceUrl := "u" },
      startedAt := some "not-a-date", finishedAt := none,
      createdAt := some "", updatedAt := some "99/99" }
    (Or.inr (Or.inr ⟨"not-a-date", rfl, fun _ _ => rfl⟩))
    (Or.inl rfl)
    (Or.inr (Or.inl rfl))
    (Or.inr (Or.inr ⟨"99/99", rfl, fun _ _ => rfl⟩))

/-! ## C1 -/

/-- C1: when a task transitions to finished, every blocked task whose
dependency set contains it and whose entire dependency set is finished
is turned pending and submitted for execution; a blocked task with an
unfinished dependency is left untouched; and only fully satisfied
blocked dependents are ever enqueued. -/
theorem C1_dependency_release :
    ∀ (tasks : List TaskRec) (fid : String),
    (∀ t ∈ tasks, t.status = TaskStatusBlocked → fid ∈ t.parameters.dependsOn →
      (∀ d ∈ t.parameters.dependsOn, taskFinished tasks d = true) →
      ({ t with status := TaskStatusPending } ∈ (releaseDependents tasks fid).1
        ∧ t.id ∈ (releaseDependents tasks fid).2))
    ∧ (∀ t ∈ tasks, t.status = TaskStatusBlocked →
      (∃ d ∈ t.parameters.dependsOn, taskFinished tasks d = false) →
      t ∈ (releaseDependents tasks fid).1)
    ∧ (∀ i ∈ (releaseDependents tasks fid).2, ∃ t ∈ tasks, t.id = i
        ∧ t.status = TaskStatusBlocked ∧ fid ∈ t.parameters.dependsOn
        ∧ ∀ d ∈ t.parameters.dependsOn, taskFinished tasks d = true) := by
  intro tasks fid
  refine ⟨?_, ?_, ?_⟩
  · intro t ht hb hdep hall
    have he : eligibleForRelease tasks fid t = true := by
      simp only [eligibleForRelease, decide_eq_true_eq]
      exact ⟨hb, hdep, hall⟩
    constructor
    · exact List.mem_map.mpr ⟨t, ht, by simp [he]⟩
    · exact List.mem_map.mpr ⟨t, List.mem_filter.mpr ⟨ht, he⟩, rfl⟩
  · intro t ht _ hex
    have he : eligibleForRelease tasks fid t = false := by
      rcases hex with ⟨d, hd, hdf⟩
      simp only [eligibleForRelease, decide_eq_false_iff_not]
      rintro ⟨_, _, hall⟩
      have := hall d hd
      rw [hdf] at this
      exact Bool.false_ne_true this
    exact List.mem_map.mpr ⟨t, ht, by simp [he]⟩
  · intro i hi
    rcases List.mem_map.mp hi with ⟨t, htf, rfl⟩
    rcases List.mem_filter.mp htf with ⟨ht, he⟩
    have := of_decide_eq_true he
    exact ⟨t, ht, rfl, this.1, this.2.1, this.2.2⟩

/-- Scenario B shaped task table, the individual rows: a finished
storyboard task, two shot tasks blocked on it, and a task blocked on it
plus an unfinished id. -/
def c1Storyboard : TaskRec :=
  { id := "sb", type := TaskTypeStoryboard, status := TaskStatusSuccess }

def c1ShotA : TaskRec :=
  { id := "shotA", type := TaskTypeShotImage, status := TaskStatusBlocked,
    parameters := { dependsOn := ["sb"] } }

def c1ShotB : TaskRec :=
  { id := "shotB", type := TaskTypeShotImage, status := TaskStatusBlocked,
    parameters := { dependsOn := ["sb"] } }

def c1Mixed : TaskRec :=
  { id := "mixed", type := TaskTypeShotImage, status := TaskStatusBlocked,
    parameters := { dependsOn := ["sb", "other"] } }

def c1Tasks : List TaskRec := [c1Storyboard, c1ShotA, c1ShotB, c1Mixed]

/-- Closed instance of C1 on the Scenario B table: both fully satisfied
shot tasks are released and enqueued, the partially satisfied one stays
blocked. -/
theorem C1_dependency_release_witness :
    ({ c1ShotA with status := TaskStatusPending } ∈ (releaseDependents c1Tasks "sb").1)
    ∧ "shotA" ∈ (releaseDependents c1Tasks "sb").2
    ∧ "shotB" ∈ (releaseDependents c1Tasks "sb").2
    ∧ c1Mixed ∈ (releaseDependents c1Tasks "sb").1 := by
  obtain ⟨p1, p2, _⟩ := C1_dependency_release c1Tasks "sb"
  refine ⟨?_, ?_, ?_, ?_⟩
  · exact (p1 c1ShotA (by decide) rfl (by decide) (by decide)).1
  · exact (p1 c1ShotA (by decide) rfl (by decide) (by decide)).2
  · exact (p1 c1ShotB (by decide) rfl (by decide) (by decide)).2
  · exact p2 c1Mixed (by decide) rfl ⟨"other", by decide, by decide⟩

/-! ## C2 -/

/-- A delivered task id whose task record is missing, while the
dispatcher outcome would have been a success. -/
def envTaskMissing : HandlerEnv :=
  { lookup := none, dispatch := Except.ok "job-1",
    poll := Except.error PollErr.timeout, route := none }

/-- C2 counterexample: on a missing task record the handler returns a
plain non-nil error to the queue substrate (so asynq does retry), even
though the dispatcher did not fail; the claim says this outcome returns
no error. -/
theorem C2_not_found_returns_error_cex :
    (handleGenerateTask envTaskMissing).ret = some HandlerRet.taskNotFound
    ∧ envTaskMissing.dispatch = Except.ok "job-1" := ⟨rfl, rfl⟩

/-- C2 amended: the handler hands a non-nil error to the queue substrate
exactly when the task record is not found or, for a non create_project
task, the dispatch fails; poll timeout, cancellation, worker-reported
failure and result-routing failure all return no error. -/
theorem C2_retry_condition :
    ∀ env : HandlerEnv, (handleGenerateTask env).ret.isSome = amendedRetCondition env := by
  intro env
  cases hl : env.lookup with
  | none => simp [handleGenerateTask, amendedRetCondition, hl]
  | some t =>
    by_cases ht : t.type = "create_project"
    · simp [handleGenerateTask, amendedRetCondition, hl, ht]
    · cases hd : env.dispatch with
      | error e => simp [handleGenerateTask, amendedRetCondition, hl, ht, hd]
      | ok j =>
        cases hp : env.poll with
        | error pe => simp [handleGenerateTask, amendedRetCondition, hl, ht, hd, hp]
        | ok r =>
          cases hro : routeOutcome env t with
          | some p => simp [handleGenerateTask, amendedRetCondition, hl, ht, hd, hp, hro]
          | none => simp [handleGenerateTask, amendedRetCondition, hl, ht, hd, hp, hro]

/-! ## C3 -/

/-- A storyboard task whose dispatch, poll and routing all succeed. -/
def envStoryboardOk : HandlerEnv :=
  { lookup := some { id := "t1", projectId := "p1", type := TaskTypeStoryboard },
    dispatch := Except.ok "job-1",
    poll := Except.ok { resourceType := "json", resourceId := "r1", resourceUrl := "u" },
    route := none }

/-- C3 counterexample: after a successful dispatch the job id is written
into the result column by an update whose status is processing, not
finished. -/
theorem C3_result_written_while_processing_cex :
    (⟨TaskStatusProcessing, some { resourceId := "job-1" }, ""⟩ : StatusWrite)
      ∈ (handleGenerateTask envStoryboardOk).writes
    ∧ TaskStatusProcessing ≠ TaskStatusSuccess := by
  refine ⟨?_, by decide⟩
  simp [handleGenerateTask, envStoryboardOk, routeOutcome, TaskTypeStoryboard]

/-- C3 amended: a write carrying a result is the finished write, or the
processing write that persists the dispatched job id into the result
column, or the failed write of a routing failure that keeps the poll
result attached for diagnostics. -/
theorem C3_result_write_shapes :
    ∀ (env : HandlerEnv) (w : StatusWrite), w ∈ (handleGenerateTask env).writes →
    w.result ≠ none →
    (w.status = TaskStatusSuccess ∧ ∃ r, env.poll = Except.ok r ∧ w.result = some r)
    ∨ (w.status = TaskStatusProcessing ∧ ∃ j, env.dispatch = Except.ok j
        ∧ w.result = some { resourceType := "", resourceId := j, resourceUrl := "" })
    ∨ (w.status = TaskStatusFailed ∧ ∃ r, env.poll = Except.ok r ∧ w.result = some r) := by
  intro env w hw hr
  cases hl : env.lookup with
  | none => simp [handleGenerateTask, hl] at hw
  | some t =>
    by_cases ht : t.type = "create_project"
    · simp [handleGenerateTask, hl, ht] at hw
      rcases hw with hw | hw <;> subst hw <;> simp at hr
    · cases hd : env.dispatch with
      | error e =>
        simp [handleGenerateTask, hl, ht, hd] at hw
        rcases hw with hw | hw <;> subst hw <;> simp at hr
      | ok j =>
        cases hp : env.poll with
        | error pe =>
          simp [handleGenerateTask, hl, ht, hd, hp] at hw
          rcases hw with hw | hw | hw <;> subst hw <;> simp at hr
          exact Or.inr (Or.inl ⟨rfl, j, rfl, rfl⟩)
        | ok r =>
          cases hro : routeOutcome env t with
          | some p =>
            simp [handleGenerateTask, hl, ht, hd, hp, hro] at hw
            rcases hw with hw | hw | hw <;> subst hw <;> simp at hr
            · exact Or.inr (Or.inl ⟨rfl, j, rfl, rfl⟩)
            · exact Or.inr (Or.inr ⟨rfl, r, rfl, rfl⟩)
          | none =>
            simp [handleGenerateTask, hl, ht, hd, hp, hro] at hw
            rcases hw with hw | hw | hw <;> subst hw <;> simp at hr
            · exact Or.inr (Or.inl ⟨rfl, j, rfl, rfl⟩)
            · exact Or.inl ⟨rfl, r, rfl, rfl⟩

/-- Closed instance of the amended C3 at the job-id write of the
all-success storyboard run. -/
theorem C3_result_write_shapes_witness :
    (TaskStatusProcessing = TaskStatusSuccess ∧ ∃ r, envStoryboardOk.poll = Except.ok r
        ∧ (some { resourceType := "", resourceId := "job-1", resourceUrl := "" } :
            Option TaskResult) = some r)
    ∨ (TaskStatusProcessing = TaskStatusProcessing ∧ ∃ j, envStoryboardOk.dispatch = Except.ok j
        ∧ (some { resourceType := "", resourceId := "job-1", resourceUrl := "" } :
            Option TaskResult)
          = some { resourceType := "", resourceId := j, resourceUrl := "" })
    ∨ (TaskStatusProcessing = TaskStatusFailed ∧ ∃ r, envStoryboardOk.poll = Except.ok r
        ∧ (some { resourceType := "", resourceId := "job-1", resourceUrl := "" } :
            Option TaskResult) = some r) := by
  have hmem : (⟨TaskStatusProcessing, some { resourceId := "job-1" }, ""⟩ : StatusWrite)
      ∈ (handleGenerateTask envStoryboardOk).writes := by
    simp [handleGenerateTask, envStoryboardOk, routeOutcome, TaskTypeStoryboard]
  exact C3_result_write_shapes envStoryboardOk
    ⟨TaskStatusProcessing, some { resourceId := "job-1" }, ""⟩ hmem (by simp)

/-! ## C4 -/

/-- The shot-image task used in the cancellation scenario. -/
def c4Task : TaskRec :=
  { id := "t1", projectId := "p1", type := TaskTypeShotImage,
    status := TaskStatusProcessing, parameters := { shot := some { shotId := "s1" } } }

/-- C4 counterexample: in the interleaving where the poll-error
write of the consumer lands after the write of the canceller, the task ends up
failed, not cancelled, even though the poll loop did exit with the
cancellation error and the registry holds no handle. -/
theorem C4_final_status_failed_cex :
    (applyWrites c4Task (scenarioE c4Task "job-1").trace ⟨9⟩).status = TaskStatusFailed
    ∧ TaskStatusFailed ≠ TaskStatusCancelled
    ∧ (scenarioE c4Task "job-1").pollOutcome = Except.error PollErr.cancelled := by
  refine ⟨by decide, by decide, rfl⟩

/-- C4 amended: external cancellation during polling makes the poll loop
exit with the cancellation error, removes the handle from the registry,
and the canceller writes status cancelled; but the consumer then records
the poll error as a failure, so with the consumer write landing last
the final status is failed. -/
theorem C4_cancel_scenario :
    ∀ (task : TaskRec) (jobId : String) (now : GoTime),
    task.type ≠ "create_project" →
    (scenarioE task jobId).pollOutcome = Except.error PollErr.cancelled
    ∧ (scenarioE task jobId).cancelFound = true
    ∧ (scenarioE task jobId).registry.handles = []
    ∧ (scenarioE task jobId).trace =
        [⟨TaskStatusProcessing, none, ""⟩,
         ⟨TaskStatusProcessing, some { resourceId := jobId }, ""⟩,
         ⟨TaskStatusCancelled, none, ""⟩,
         ⟨TaskStatusFailed, none, "Job Failed: " ++ PollErr.cancelled.message⟩]
    ∧ (applyWrites task (scenarioE task jobId).trace now).status = TaskStatusFailed := by
  intro task jobId now ht
  have hreg : RegisterPollCancel {} task.id = { handles := [task.id], cancelled := [] } := by
    simp [RegisterPollCancel]
  have hcancel : CancelPollTask { handles := [task.id], cancelled := [] } task.id
      = ({ handles := [], cancelled := [task.id] }, true) := by
    simp [CancelPollTask]
  have hwake : pollWake { handles := [], cancelled := [task.id] } task.id (Except.ok {})
      = Except.error PollErr.cancelled := by
    simp [pollWake]
  refine ⟨?_, ?_, ?_, ?_, ?_⟩ <;>
    simp [scenarioE, hreg, hcancel, hwake, handleGenerateTask, ht,
      UnregisterPollCancel, applyWrites, TaskRec.updateStatus]

/-- Closed instance of the amended C4 at the concrete scenario task. -/
theorem C4_cancel_scenario_witness :
    (applyWrites c4Task (scenarioE c4Task "job-1").trace ⟨9⟩).status = TaskStatusFailed :=
  (C4_cancel_scenario c4Task "job-1" ⟨9⟩ (by decide)).2.2.2.2

/-! ## C5 -/

/-- A shot-image task whose dispatch fails with a 500 from the worker. -/
def envDispatchErr : HandlerEnv :=
  { lookup := some { id := "t1", type := TaskTypeShotImage },
    dispatch := Except.error (DispatchErr.badStatus 500),
    poll := Except.error PollErr.timeout, route := none }

/-- C5 counterexample: a dispatch error marks the task failed and
returns a non-nil error, so the queue substrate redelivers the id and
the second run marks the task processing again: the status sequence over
the two runs leaves the terminal status failed. -/
theorem C5_terminal_overwritten_cex :
    (handleGenerateTask envDispatchErr).ret.isSome = true
    ∧ statusTrace envDispatchErr ++ statusTrace envDispatchErr
        = [TaskStatusProcessing, TaskStatusFailed, TaskStatusProcessing, TaskStatusFailed] := by
  refine ⟨by decide, by decide⟩

/-- C5 amended: only finished is effectively final: within any handler
run a finished write is never followed by another write and such a run
returns success, so the queue never redelivers it; failed is not
protected, since the dispatch-error path both writes failed and returns
the error that triggers redelivery (and the redelivered run writes
processing again), and a cancelled write can likewise be followed by the
failed write of the consumer. -/
theorem C5_finished_is_final :
    ∀ env : HandlerEnv,
    (∀ w ∈ (handleGenerateTask env).writes.dropLast, w.status ≠ TaskStatusSuccess)
    ∧ ((∃ w ∈ (handleGenerateTask env).writes, w.status = TaskStatusSuccess) →
        (handleGenerateTask env).ret = none) := by
  intro env
  cases hl : env.lookup with
  | none => constructor <;> simp [handleGenerateTask, hl]
  | some t =>
    by_cases ht : t.type = "create_project"
    · constructor
      · intro w hw
        simp [handleGenerateTask, hl, ht] at hw
        subst hw
        simp [TaskStatusProcessing, TaskStatusSuccess]
      · intro _
        simp [handleGenerateTask, hl, ht]
    · cases hd : env.dispatch with
      | error e =>
        constructor
        · intro w hw
          simp [handleGenerateTask, hl, ht, hd] at hw
          subst hw
          simp [TaskStatusProcessing, TaskStatusSuccess]
        · intro hex
          rcases hex with ⟨w, hw, hws⟩
          simp [handleGenerateTask, hl, ht, hd] at hw
          rcases hw with hw | hw <;> subst hw <;>
            simp [TaskStatusProcessing, TaskStatusFailed, TaskStatusSuccess] at hws
      | ok j =>
        cases hp : env.poll with
        | error pe =>
          constructor
          · intro w hw
            simp [handleGenerateTask, hl, ht, hd, hp] at hw
            rcases hw with hw | hw <;> subst hw <;>
              simp [TaskStatusProcessing, TaskStatusSuccess]
          · intro hex
            rcases hex with ⟨w, hw, hws⟩
            simp [handleGenerateTask, hl, ht, hd, hp] at hw
            rcases hw with hw | hw | hw <;> subst hw <;>
              simp [TaskStatusProcessing, TaskStatusFailed, TaskStatusSuccess] at hws
        | ok r =>
          cases hro : routeOutcome env t with
          | some p =>
            constructor
            · intro w hw
              simp [handleGenerateTask, hl, ht, hd, hp, hro] at hw
              rcases hw with hw | hw <;> subst hw <;>
                simp [TaskStatusProcessing, TaskStatusSuccess]
            · intro hex
              rcases hex with ⟨w, hw, hws⟩
              simp [handleGenerateTask, hl, ht, hd, hp, hro] at hw
              rcases hw with hw | hw | hw <;> subst hw <;>
                simp [TaskStatusProcessing, TaskStatusFailed, TaskStatusSuccess] at hws
          | none =>
            constructor
            · intro w hw
              simp [handleGenerateTask, hl, ht, hd, hp, hro] at hw
              rcases hw with hw | hw <;> subst hw <;>
                simp [TaskStatusProcessing, TaskStatusSuccess]
            · intro _
              simp [handleGenerateTask, hl, ht, hd, hp, hro]

/-- Closed instance of the amended C5 at the all-success storyboard run:
the run that writes finished returns no error to the queue. -/
theorem C5_finished_is_final_witness :
    (handleGenerateTask envStoryboardOk).ret = none := by
  refine (C5_finished_is_final envStoryboardOk).2
    ⟨⟨TaskStatusSuccess, some { resourceType := "json", resourceId := "r1", resourceUrl := "u" }, ""⟩,
      ?_, rfl⟩
  simp [handleGenerateTask, envStoryboardOk, routeOutcome, TaskTypeStoryboard]

end StoryToVideo
